import Mathlib

/-!
Shallow embedding of `infogami/infobase/infobase.py`: the tenant registry
(`Infobase`), the per-tenant `Site` with its write pipeline, the event bus
and the trigger-resolution engine.  External collaborators (storage
provider, storage handle, query processors) are modelled as function
parameters with exactly the shape the source consumes.
-/

set_option autoImplicit false

namespace Infogami

/-- A versioned object ("thing").  The core reads only `key`, `type.key`
(modelled as `typeKey`) and `revision`. -/
structure Thing where
  key : String
  typeKey : String
  revision : Nat
deriving DecidableEq, Repr

/-- One entry of the sequence returned by the storage collaborator's
`save`/`save_many`: the persisted key and its assigned revision. -/
structure SaveResult where
  key : String
  revision : Nat
deriving DecidableEq, Repr

/-- An item mutation produced by a query processor (`p.process`); the core
reads its `key` and passes the rest through opaquely (`payload`). -/
structure Item where
  key : String
  payload : Nat
deriving DecidableEq, Repr

/-- In-memory image of a `Site` as held by the tenant registry: its name, the
storage handle it wraps, and whether `bootstrap` was run on it. -/
structure SiteM where
  sitename : String
  storage : Nat
  bootstrapped : Bool
deriving DecidableEq, Repr

/-- The storage provider (`self.store` of `Infobase`): opens, creates and
deletes per-tenant storage.  Absence is a normal outcome (`get` returns
`none`), and `delete` returns the provider's boolean outcome. -/
structure Provider where
  get : String → Option Nat
  create : String → Nat
  delete : String → Bool

/-- Mutable state of the tenant registry: the `sites` dict, modelled as an
association list with unique keys (Python dict semantics). -/
structure InfobaseState where
  sites : List (String × SiteM)
deriving Repr

/-- `Infobase.create`: opens new storage via the provider, constructs a Site,
runs its bootstrap, registers and returns it. -/
def Infobase.create (prov : Provider) (st : InfobaseState) (sitename : String) :
    SiteM × InfobaseState :=
  let site : SiteM := ⟨sitename, prov.create sitename, true⟩
  (site, ⟨(sitename, site) :: st.sites⟩)

/-- `Infobase.get`: return the cached Site when present; otherwise ask the
provider; on absence return `none` without error; otherwise construct a new
Site (no bootstrap), cache and return it.  The source calls
`self.store.get(sitename)` twice on this path; the provider is modelled as a
pure function, so both calls agree. -/
def Infobase.get (prov : Provider) (st : InfobaseState) (sitename : String) :
    Option SiteM × InfobaseState :=
  match st.sites.lookup sitename with
  | some site => (some site, st)
  | none =>
    match prov.get sitename with
    | none => (none, st)
    | some storage =>
      let site : SiteM := ⟨sitename, storage, false⟩
      (some site, ⟨(sitename, site) :: st.sites⟩)

/-- `Infobase.delete`: `if sitename in self.sites: del self.sites[sitename]`,
then return `self.store.delete(sitename)`.  Deleting a dict key removes its
(unique) binding, modelled by filtering the association list. -/
def Infobase.delete (prov : Provider) (st : InfobaseState) (sitename : String) :
    Bool × InfobaseState :=
  let sites :=
    if (st.sites.lookup sitename).isSome then
      st.sites.filter (fun p => p.1 != sitename)
    else
      st.sites
  (prov.delete sitename, ⟨sites⟩)

/-- `Infobase.add_event_listener`: `self.event_listeners.append(listener)`. -/
def add_event_listener {α : Type} (listeners : List α) (l : α) : List α :=
  listeners ++ [l]

/-- `Infobase.remove_event_listener`: `self.event_listeners.remove(listener)`
with `ValueError` swallowed.  Python `list.remove` deletes the first
occurrence and raises when absent; catching the error makes the absent case a
no-op, which is exactly `List.erase`. -/
def remove_event_listener {α : Type} [DecidableEq α] (listeners : List α) (l : α) : List α :=
  listeners.erase l

/-! ### Event bus -/

/-- A registered event listener: identified by `id`; `raises` says whether
invoking it raises an exception. -/
structure Listener where
  id : Nat
  raises : Bool
deriving DecidableEq, Repr

/-- The Event record built by `Site._fire_event`: the fields the claims
observe (name tag and the mutated item's key standing for the payload). -/
structure Event where
  name : String
  dataKey : String
deriving DecidableEq, Repr

/-- Record of one listener invocation made by `Infobase.fire_event`:
which listener ran, on which event, and whether it raised (the exception is
caught and recorded by `common.record_exception`). -/
structure ListenerCall where
  listener : Nat
  event : Event
  raised : Bool
deriving DecidableEq, Repr

/-- `Infobase.fire_event`: invoke every registered listener with the event,
in registration order; `try/except` around each call means a raising listener
is recorded and the loop continues, so every listener is reached. -/
def fire_event (listeners : List Listener) (ev : Event) : List ListenerCall :=
  listeners.map (fun l => ⟨l.id, ev, l.raises⟩)

/-! ### Trigger engine -/

/-- A registered trigger callback: identified by `id`; `raises` says whether
invoking it raises. -/
structure Handler where
  id : Nat
  raises : Bool
deriving DecidableEq, Repr

/-- Record of one trigger invocation `t(self, old, new)` made inside
`fire_trigger`: which handler, under which type key it was looked up, the
`old`/`new` pair it received, and whether it raised (caught and logged). -/
structure Invocation where
  handler : Nat
  typeKey : String
  old : Option Thing
  new : Thing
  raised : Bool
deriving DecidableEq, Repr

/-- The Site's storage handle as consumed by trigger resolution:
`self.get(key, revision)` = `store.get(key, revision)`, `none` when the key or
revision does not exist. -/
structure TStore where
  get : String → Option Nat → Option Thing

/-- The inner `fire_trigger(type, old, new)` of `Site._fire_triggers`:
look up `self._triggers.get(type.key, [])` and call each handler in
registration order; each call is wrapped in `try/except`, so a raising
handler is logged and the loop continues to the next handler. -/
def fire_trigger (triggers : String → List Handler) (typeKey : String)
    (old : Option Thing) (new : Thing) : List Invocation :=
  (triggers typeKey).map (fun t => ⟨t.id, typeKey, old, new, t.raises⟩)

/-- The `for key in created` loop of `Site._fire_triggers`:
`thing = self.get(key); fire_trigger(thing.type, None, thing)`.  A missing
key makes the Python loop raise `AttributeError` (uncaught), modelled as
`none`. -/
def fireCreated (store : TStore) (triggers : String → List Handler) :
    List String → Option (List Invocation)
  | [] => some []
  | key :: rest => do
    let thing ← store.get key none
    let tail ← fireCreated store triggers rest
    pure (fire_trigger triggers thing.typeKey none thing ++ tail)

/-- The `for key in updated` loop of `Site._fire_triggers`:
fetch the current object and its immediately prior revision; same type ⇒ one
firing for that type, different type ⇒ fire the old type then the new type,
both with the same `(old, new)` pair. -/
def fireUpdated (store : TStore) (triggers : String → List Handler) :
    List String → Option (List Invocation)
  | [] => some []
  | key :: rest => do
    let thing ← store.get key none
    let old ← store.get key (some (thing.revision - 1))
    let tail ← fireUpdated store triggers rest
    let segment :=
      if old.typeKey = thing.typeKey then
        fire_trigger triggers thing.typeKey (some old) thing
      else
        fire_trigger triggers old.typeKey (some old) thing ++
          fire_trigger triggers thing.typeKey (some old) thing
    pure (segment ++ tail)

/-- `Site._fire_triggers(created, updated)`: the created loop runs first,
then the updated loop. -/
def fire_triggers (store : TStore) (triggers : String → List Handler)
    (created updated : List String) : Option (List Invocation) := do
  let c ← fireCreated store triggers created
  let u ← fireUpdated store triggers updated
  pure (c ++ u)

/-! ### Write pipeline -/

/-- `[r['key'] for r in result if r['revision'] == 1]` (Site.write line 111,
Site.save line 133, Site.save_many line 151). -/
def createdKeys (result : List SaveResult) : List String :=
  (result.filter (fun r => r.revision == 1)).map (fun r => r.key)

/-- `[r['key'] for r in result if r['revision'] != 1]` (Site.write line 112,
Site.save line 134, Site.save_many line 152). -/
def updatedKeys (result : List SaveResult) : List String :=
  (result.filter (fun r => r.revision != 1)).map (fun r => r.key)

/-- A Python generator: a single-use lazy sequence.  Consuming it yields its
remaining elements and leaves it exhausted. -/
structure Gen (α : Type) where
  rest : List α
deriving Repr

/-- Iterate a generator to the end: the elements it still had, and the
exhausted generator left behind. -/
def Gen.consume {α : Type} (g : Gen α) : List α × Gen α :=
  (g.rest, ⟨[]⟩)

/-- Everything `Site.write` produces that the claims observe. -/
structure WriteOutput where
  created : List String
  updated : List String
  events : List Event
  listenerCalls : List ListenerCall
  triggerTrace : Option (List Invocation)

/-- `Site.write` after the query processor has run: `items = p.process(query)`
is an ordered sequence of item mutations; `store.save_many` persists them and
returns the results; one "save" event is fired per item (each broadcast to
every listener); results are classified by revision and `_fire_triggers` runs
on the two key lists; the two lists are returned. -/
def Site.write (saveMany : List Item → List SaveResult) (store : TStore)
    (triggers : String → List Handler) (listeners : List Listener)
    (items : List Item) : WriteOutput :=
  let result := saveMany items
  let events := items.map (fun item => Event.mk "save" item.key)
  let listenerCalls := events.flatMap (fun ev => fire_event listeners ev)
  let created := createdKeys result
  let updated := updatedKeys result
  { created := created, updated := updated, events := events,
    listenerCalls := listenerCalls,
    triggerTrace := fire_triggers store triggers created updated }

/-- Everything `Site.save` produces that the claims observe.  `result` is
`none` for the Python empty dict `{}` returned on the no-op path, and
`saveCalled` records whether `store.save` was invoked at all. -/
structure SaveOutput where
  result : Option SaveResult
  saveCalled : Bool
  events : List Event
  listenerCalls : List ListenerCall
  triggerTrace : Option (List Invocation)

/-- `Site.save(key, data)`: `data = p.process(key, data)`; if falsy, no
persistence call is made and `result = {}`; otherwise `store.save` persists
the item.  `if result:` then fires one event with the processed data and runs
the classification and triggers on `[result]`; the falsy-result path skips
all of it. -/
def Site.save (storeSave : String → Item → SaveResult) (store : TStore)
    (triggers : String → List Handler) (listeners : List Listener)
    (processor : String → Item → Option Item)
    (key : String) (data : Item) : SaveOutput :=
  let data := processor key data
  let result := match data with
    | some d => some (storeSave key d)
    | none => none
  match result, data with
  | some r, some d =>
    let ev := Event.mk "save" d.key
    let created := createdKeys [r]
    let updated := updatedKeys [r]
    { result := some r, saveCalled := true, events := [ev],
      listenerCalls := fire_event listeners ev,
      triggerTrace := fire_triggers store triggers created updated }
  | _, _ =>
    { result := none, saveCalled := false, events := [],
      listenerCalls := [], triggerTrace := some [] }

/-- Everything `Site.save_many` produces that the claims observe. -/
structure SaveManyOutput where
  result : List SaveResult
  events : List Event
  listenerCalls : List ListenerCall
  triggerTrace : Option (List Invocation)
deriving Repr

/-- `Site.save_many(items)`: the source builds
`items = (p.process(item['key'], item) for item in items)` then
`items = (item for item in items if item)` — a chained lazy generator that
maps the save-processor and filters out falsy results (`List.filterMap`).
`store.save_many(items, ...)` must iterate the whole sequence to persist it,
which exhausts the generator; the subsequent `for item in items:` event loop
therefore iterates whatever the generator has left.  Results are classified
and `_fire_triggers` runs as in `write`. -/
def Site.save_many (saveMany : List Item → List SaveResult) (store : TStore)
    (triggers : String → List Handler) (listeners : List Listener)
    (processor : String → Item → Option Item)
    (items : List Item) : SaveManyOutput :=
  let gen : Gen Item := ⟨items.filterMap (fun item => processor item.key item)⟩
  let (persisted, gen) := gen.consume
  let result := saveMany persisted
  let (leftover, _) := gen.consume
  let events := leftover.map (fun item => Event.mk "save" item.key)
  let listenerCalls := events.flatMap (fun ev => fire_event listeners ev)
  let created := createdKeys result
  let updated := updatedKeys result
  { result := result, events := events, listenerCalls := listenerCalls,
    triggerTrace := fire_triggers store triggers created updated }

/-- Forget a handler's raising behaviour (used to compare a run against the
same run with no observer failures). -/
def Handler.clear (h : Handler) : Handler :=
  ⟨h.id, false⟩

/-- Forget a listener's raising behaviour. -/
def Listener.clear (l : Listener) : Listener :=
  ⟨l.id, false⟩

/-- Forget the raised flag of an invocation record. -/
def Invocation.clear (i : Invocation) : Invocation :=
  ⟨i.handler, i.typeKey, i.old, i.new, false⟩

/-- Forget the raised flag of a listener-call record. -/
def ListenerCall.clear (c : ListenerCall) : ListenerCall :=
  ⟨c.listener, c.event, false⟩

/-- A trigger registry with every handler's raising behaviour forgotten. -/
def clearTriggers (triggers : String → List Handler) : String → List Handler :=
  fun t => (triggers t).map Handler.clear

/-! ### Helper lemmas -/

theorem fire_trigger_clear (triggers : String → List Handler) (t : String)
    (old : Option Thing) (new : Thing) :
    fire_trigger (clearTriggers triggers) t old new =
      (fire_trigger triggers t old new).map Invocation.clear := by
  simp [fire_trigger, clearTriggers, List.map_map, Function.comp,
    Handler.clear, Invocation.clear]

theorem fireCreated_clear (store : TStore) (triggers : String → List Handler)
    (keys : List String) :
    fireCreated store (clearTriggers triggers) keys =
      (fireCreated store triggers keys).map (List.map Invocation.clear) := by
  induction keys with
  | nil => rfl
  | cons k rest ih =>
    cases hg : store.get k none with
    | none => simp [fireCreated, hg]
    | some thing =>
      cases hr : fireCreated store triggers rest with
      | none => simp [fireCreated, hg, ih, hr]
      | some tail => simp [fireCreated, hg, ih, hr, fire_trigger_clear]

theorem fireUpdated_clear (store : TStore) (triggers : String → List Handler)
    (keys : List String) :
    fireUpdated store (clearTriggers triggers) keys =
      (fireUpdated store triggers keys).map (List.map Invocation.clear) := by
  induction keys with
  | nil => rfl
  | cons k rest ih =>
    cases hg : store.get k none with
    | none => simp [fireUpdated, hg]
    | some thing =>
      cases ho : store.get k (some (thing.revision - 1)) with
      | none => simp [fireUpdated, hg, ho]
      | some old =>
        cases hr : fireUpdated store triggers rest with
        | none => simp [fireUpdated, hg, ho, ih, hr]
        | some tail =>
          by_cases hty : old.typeKey = thing.typeKey
          · simp [fireUpdated, hg, ho, ih, hr, hty, fire_trigger_clear]
          · simp [fireUpdated, hg, ho, ih, hr, hty, fire_trigger_clear]

theorem fire_triggers_clear (store : TStore) (triggers : String → List Handler)
    (created updated : List String) :
    fire_triggers store (clearTriggers triggers) created updated =
      (fire_triggers store triggers created updated).map (List.map Invocation.clear) := by
  cases hc : fireCreated store triggers created with
  | none => simp [fire_triggers, fireCreated_clear, hc]
  | some c =>
    cases hu : fireUpdated store triggers updated with
    | none => simp [fire_triggers, fireCreated_clear, fireUpdated_clear, hc, hu]
    | some u => simp [fire_triggers, fireCreated_clear, fireUpdated_clear, hc, hu]

theorem lookup_filter_ne {β : Type} (l : List (String × β)) (name : String) :
    (l.filter (fun p => p.1 != name)).lookup name = none := by
  induction l with
  | nil => rfl
  | cons p rest ih =>
    obtain ⟨k, v⟩ := p
    by_cases h : k = name
    · simpa [List.filter_cons, h] using ih
    · simpa [List.filter_cons, h, List.lookup_cons, beq_false_of_ne (Ne.symm h)] using ih

/-! ### Claims -/

/-- C6: `Infobase.get` returns the cached in-memory Site when one is present;
otherwise, when the storage provider reports absence, it returns `none`
without raising; otherwise it constructs a new Site wrapping the provider's
storage, caches it in the tenant mapping, and returns it without running
bootstrap. -/
theorem infobase_get_spec (prov : Provider) (st : InfobaseState) (name : String) :
    (∀ s, st.sites.lookup name = some s → Infobase.get prov st name = (some s, st)) ∧
    (st.sites.lookup name = none → prov.get name = none →
      Infobase.get prov st name = (none, st)) ∧
    (∀ storage, st.sites.lookup name = none → prov.get name = some storage →
      Infobase.get prov st name =
        (some ⟨name, storage, false⟩,
          ⟨(name, ⟨name, storage, false⟩) :: st.sites⟩)) := by
  refine ⟨?_, ?_, ?_⟩
  · intro s hs; simp [Infobase.get, hs]
  · intro h1 h2; simp [Infobase.get, h1, h2]
  · intro storage h1 h2; simp [Infobase.get, h1, h2]

/-- C6 witness: the cache-miss, provider-hit case at a concrete registry. -/
theorem infobase_get_spec_witness :
    Infobase.get ⟨fun _ => some 7, fun _ => 0, fun _ => true⟩ ⟨[]⟩ "a" =
      (some ⟨"a", 7, false⟩, ⟨[("a", ⟨"a", 7, false⟩)]⟩) :=
  (infobase_get_spec ⟨fun _ => some 7, fun _ => 0, fun _ => true⟩ ⟨[]⟩ "a").2.2 7 rfl rfl

/-- C7: `Infobase.delete` removes the in-memory Site entry if present,
succeeds and leaves the mapping unchanged when none exists, is idempotent on
the in-memory mapping, and in all cases returns exactly the storage
provider's delete outcome. -/
theorem infobase_delete_spec (prov : Provider) (st : InfobaseState) (name : String) :
    (Infobase.delete prov st name).1 = prov.delete name ∧
    ((Infobase.delete prov st name).2).sites.lookup name = none ∧
    (st.sites.lookup name = none → (Infobase.delete prov st name).2 = st) ∧
    Infobase.delete prov ((Infobase.delete prov st name).2) name =
      (prov.delete name, (Infobase.delete prov st name).2) := by
  refine ⟨rfl, ?_, ?_, ?_⟩
  · by_cases h : (st.sites.lookup name).isSome
    · simp [Infobase.delete, h, lookup_filter_ne]
    · simp only [Option.isSome] at h
      cases hl : st.sites.lookup name with
      | some v => rw [hl] at h; simp at h
      | none => simp [Infobase.delete, hl]
  · intro h; simp [Infobase.delete, h]
  · by_cases h : (st.sites.lookup name).isSome
    · simp [Infobase.delete, h, lookup_filter_ne]
    · cases hl : st.sites.lookup name with
      | some v => rw [hl] at h; simp at h
      | none => simp [Infobase.delete, hl]

/-- C7 witness: deleting an absent tenant at a concrete registry is a
mapping no-op that still returns the provider's outcome. -/
theorem infobase_delete_spec_witness :
    (Infobase.delete ⟨fun _ => none, fun _ => 0, fun _ => false⟩ ⟨[]⟩ "a").2 = ⟨[]⟩ :=
  (infobase_delete_spec ⟨fun _ => none, fun _ => 0, fun _ => false⟩ ⟨[]⟩ "a").2.2.1 rfl

/-- C8: removing a listener value not present in the registry's listener
sequence raises no error and leaves the sequence unchanged. -/
theorem remove_absent_listener_noop {α : Type} [DecidableEq α]
    (listeners : List α) (l : α) (h : l ∉ listeners) :
    remove_event_listener listeners l = listeners :=
  List.erase_of_not_mem h

/-- C8 witness: removing `3` from `[1, 2]`. -/
theorem remove_absent_listener_noop_witness :
    remove_event_listener [1, 2] (3 : Nat) = [1, 2] :=
  remove_absent_listener_noop [1, 2] 3 (by decide)

/-- C10 counterexample: with listeners `[0, 1]`, adding `0` and then removing
`0` yields `[1, 0]`, not the original sequence `[0, 1]` — removal deletes the
first occurrence, which here is the pre-existing one. -/
theorem add_remove_listener_counterexample :
    remove_event_listener (add_event_listener [0, 1] (0 : Nat)) 0 ≠ [0, 1] := by
  decide

/-- C10 amended: add-then-remove leaves the listener sequence a permutation
of its original value (same listeners, same multiplicities), and equal to it
exactly when the listener was not already registered; removal deletes only
the first occurrence of the listener, so duplicate registrations are removed
one at a time. -/
theorem add_remove_listener_spec {α : Type} [DecidableEq α]
    (listeners : List α) (l : α) :
    List.Perm (remove_event_listener (add_event_listener listeners l) l) listeners ∧
    (l ∉ listeners →
      remove_event_listener (add_event_listener listeners l) l = listeners) ∧
    (∀ pre post : List α, l ∉ pre →
      remove_event_listener (pre ++ l :: post) l = pre ++ post) := by
  refine ⟨?_, ?_, ?_⟩
  · by_cases h : l ∈ listeners
    · rw [remove_event_listener, add_event_listener, List.erase_append_left _ h]
      exact List.perm_append_comm.trans (List.perm_cons_erase h).symm
    · rw [remove_event_listener, add_event_listener, List.erase_append_right _ h]
      simp
  · intro h
    rw [remove_event_listener, add_event_listener, List.erase_append_right _ h]
    simp
  · intro pre post h
    rw [remove_event_listener, List.erase_append_right _ h]
    simp

/-- C10 witness for the amended claim: a listener not yet registered is
restored exactly, and removal takes the first occurrence. -/
theorem add_remove_listener_spec_witness :
    remove_event_listener (add_event_listener [1, 2] (3 : Nat)) 3 = [1, 2] :=
  (add_remove_listener_spec [1, 2] 3).2.1 (by decide)

/-- C2: for an updated key whose object's type differs between the prior
revision and the current revision, trigger resolution fires the handlers
registered for the prior type and then the handlers for the current type,
both with the same `(old = prior, new = current)` pair, prior-type firing
strictly before current-type firing; when the type is unchanged, exactly the
one firing for that single type occurs. -/
theorem fire_triggers_updated_spec (store : TStore) (triggers : String → List Handler)
    (k : String) (rest : List String) (thing old : Thing) (tail : List Invocation)
    (hthing : store.get k none = some thing)
    (hold : store.get k (some (thing.revision - 1)) = some old)
    (htail : fireUpdated store triggers rest = some tail) :
    (old.typeKey ≠ thing.typeKey →
      fire_triggers store triggers [] (k :: rest) =
        some (fire_trigger triggers old.typeKey (some old) thing ++
          fire_trigger triggers thing.typeKey (some old) thing ++ tail)) ∧
    (old.typeKey = thing.typeKey →
      fire_triggers store triggers [] (k :: rest) =
        some (fire_trigger triggers thing.typeKey (some old) thing ++ tail)) := by
  constructor
  · intro hne
    simp [fire_triggers, fireCreated, fireUpdated, hthing, hold, htail, hne]
  · intro heq
    simp [fire_triggers, fireCreated, fireUpdated, hthing, hold, htail, heq]

/-- C2 witness: key `"k"` changes type from `"T1"` (revision 2) to `"T2"`
(revision 3); the `"T1"` handler fires first, then the `"T2"` handler, both
with the same old/new pair. -/
theorem fire_triggers_updated_spec_witness :
    fire_triggers
      ⟨fun key r =>
        if key = "k" then
          match r with
          | none => some ⟨"k", "T2", 3⟩
          | some 2 => some ⟨"k", "T1", 2⟩
          | _ => none
        else none⟩
      (fun t => if t = "T1" then [⟨1, false⟩] else if t = "T2" then [⟨2, false⟩] else [])
      [] ["k"] =
      some (fire_trigger
          (fun t => if t = "T1" then [⟨1, false⟩] else if t = "T2" then [⟨2, false⟩] else [])
          "T1" (some ⟨"k", "T1", 2⟩) ⟨"k", "T2", 3⟩ ++
        fire_trigger
          (fun t => if t = "T1" then [⟨1, false⟩] else if t = "T2" then [⟨2, false⟩] else [])
          "T2" (some ⟨"k", "T1", 2⟩) ⟨"k", "T2", 3⟩ ++ []) :=
  (fire_triggers_updated_spec _ _ "k" [] ⟨"k", "T2", 3⟩ ⟨"k", "T1", 2⟩ []
    rfl rfl rfl).1 (by decide)

/-- C5: a persisted result's key is classified as created iff its returned
revision equals 1 and as updated otherwise, and for every created key the
trigger firing receives `old = none` and `new` = the current (latest) object
fetched for that key. -/
theorem write_classification_spec (store : TStore) (triggers : String → List Handler)
    (result : List SaveResult) (k : String) (rest : List String)
    (thing : Thing) (tail : List Invocation)
    (hget : store.get k none = some thing)
    (htail : fireCreated store triggers rest = some tail) :
    (k ∈ createdKeys result ↔ ∃ r ∈ result, r.key = k ∧ r.revision = 1) ∧
    (k ∈ updatedKeys result ↔ ∃ r ∈ result, r.key = k ∧ r.revision ≠ 1) ∧
    fire_triggers store triggers (k :: rest) [] =
      some (fire_trigger triggers thing.typeKey none thing ++ tail) ∧
    (∀ inv ∈ fire_trigger triggers thing.typeKey none thing,
      inv.old = none ∧ inv.new = thing) := by
  refine ⟨?_, ?_, ?_, ?_⟩
  · simp only [createdKeys, List.mem_map, List.mem_filter, beq_iff_eq]
    constructor
    · rintro ⟨r, ⟨hr, hrev⟩, hkey⟩
      exact ⟨r, hr, hkey, hrev⟩
    · rintro ⟨r, hr, hkey, hrev⟩
      exact ⟨r, ⟨hr, hrev⟩, hkey⟩
  · simp only [updatedKeys, List.mem_map, List.mem_filter, bne_iff_ne, ne_eq]
    constructor
    · rintro ⟨r, ⟨hr, hrev⟩, hkey⟩
      exact ⟨r, hr, hkey, hrev⟩
    · rintro ⟨r, hr, hkey, hrev⟩
      exact ⟨r, ⟨hr, hrev⟩, hkey⟩
  · simp [fire_triggers, fireCreated, fireUpdated, hget, htail]
  · intro inv hinv
    simp only [fire_trigger, List.mem_map] at hinv
    obtain ⟨t, _, rfl⟩ := hinv
    exact ⟨rfl, rfl⟩

/-- C5 witness: a result with revision 1 classifies `"a"` as created, and the
created-key firing for `"a"` passes `old = none` and the latest object. -/
theorem write_classification_spec_witness :
    ("a" ∈ createdKeys [⟨"a", 1⟩] ↔
      ∃ r ∈ [SaveResult.mk "a" 1], r.key = "a" ∧ r.revision = 1) ∧
    ("a" ∈ updatedKeys [⟨"a", 1⟩] ↔
      ∃ r ∈ [SaveResult.mk "a" 1], r.key = "a" ∧ r.revision ≠ 1) ∧
    fire_triggers ⟨fun key _ => if key = "a" then some ⟨"a", "T", 1⟩ else none⟩
        (fun _ => [⟨5, false⟩]) ["a"] [] =
      some (fire_trigger (fun _ => [⟨5, false⟩]) "T" none ⟨"a", "T", 1⟩ ++ []) ∧
    (∀ inv ∈ fire_trigger (fun _ => [⟨5, false⟩]) "T" none ⟨"a", "T", 1⟩,
      inv.old = none ∧ inv.new = ⟨"a", "T", 1⟩) :=
  write_classification_spec _ _ [⟨"a", 1⟩] "a" [] ⟨"a", "T", 1⟩ [] rfl rfl

/-- C4: when the save-query processor returns a falsy result, `Site.save` is
a complete no-op: `store.save` is never called, zero events are emitted, zero
trigger firings occur, and the empty result is returned. -/
theorem save_falsy_noop (storeSave : String → Item → SaveResult) (store : TStore)
    (triggers : String → List Handler) (listeners : List Listener)
    (processor : String → Item → Option Item) (key : String) (data : Item)
    (h : processor key data = none) :
    Site.save storeSave store triggers listeners processor key data =
      ⟨none, false, [], [], some []⟩ := by
  simp [Site.save, h]

/-- C4 witness: a processor that rejects everything makes a concrete save a
no-op. -/
theorem save_falsy_noop_witness :
    Site.save (fun k _ => ⟨k, 1⟩) ⟨fun _ _ => none⟩ (fun _ => []) []
      (fun _ _ => none) "a" ⟨"a", 0⟩ = ⟨none, false, [], [], some []⟩ :=
  save_falsy_noop _ _ _ _ _ "a" ⟨"a", 0⟩ rfl

/-- C9 counterexample: a result sequence whose two entries share the key
`"a"` with revisions 1 and 2 puts `"a"` in the created list and in the
updated list, so the two key lists are not disjoint. -/
theorem created_updated_overlap :
    "a" ∈ createdKeys [⟨"a", 1⟩, ⟨"a", 2⟩] ∧
      "a" ∈ updatedKeys [⟨"a", 1⟩, ⟨"a", 2⟩] := by
  decide

/-- C9 amended: every persisted result contributes its key to exactly one of
the two lists — created for revision 1, updated otherwise — and
`created ++ updated` is a permutation of the result's keys; when the result's
keys are pairwise distinct the two lists are additionally disjoint, so they
partition the result keys. -/
theorem created_updated_partition (result : List SaveResult) :
    List.Perm (createdKeys result ++ updatedKeys result)
      (result.map (fun r => r.key)) ∧
    (∀ r ∈ result, (r.revision = 1 → r.key ∈ createdKeys result) ∧
      (r.revision ≠ 1 → r.key ∈ updatedKeys result)) ∧
    ((result.map (fun r => r.key)).Nodup →
      ∀ kk, ¬(kk ∈ createdKeys result ∧ kk ∈ updatedKeys result)) := by
  have hperm : List.Perm (createdKeys result ++ updatedKeys result)
      (result.map (fun r => r.key)) := by
    have h := (List.filter_append_perm (fun r => r.revision == 1) result).map
      (fun r => r.key)
    rw [List.map_append] at h
    exact h
  refine ⟨hperm, ?_, ?_⟩
  · intro r hr
    constructor
    · intro h1
      simp only [createdKeys, List.mem_map, List.mem_filter, beq_iff_eq]
      exact ⟨r, ⟨hr, h1⟩, rfl⟩
    · intro h1
      simp only [updatedKeys, List.mem_map, List.mem_filter, bne_iff_ne, ne_eq]
      exact ⟨r, ⟨hr, h1⟩, rfl⟩
  · intro hnd kk hk
    have hcount := hperm.count_eq kk
    rw [List.count_append] at hcount
    have h1 : 0 < List.count kk (createdKeys result) :=
      List.count_pos_iff.mpr hk.1
    have h2 : 0 < List.count kk (updatedKeys result) :=
      List.count_pos_iff.mpr hk.2
    have h3 := List.nodup_iff_count_le_one.mp hnd kk
    omega

/-- C9 witness: with distinct keys the two lists are disjoint at `"a"`, and
the revision-1 entry lands in the created list. -/
theorem created_updated_partition_witness :
    ¬("a" ∈ createdKeys [⟨"a", 1⟩, ⟨"b", 2⟩] ∧
        "a" ∈ updatedKeys [⟨"a", 1⟩, ⟨"b", 2⟩]) :=
  (created_updated_partition [⟨"a", 1⟩, ⟨"b", 2⟩]).2.2 (by decide) "a"

theorem fire_event_clear (listeners : List Listener) (ev : Event) :
    fire_event (listeners.map Listener.clear) ev =
      (fire_event listeners ev).map ListenerCall.clear := by
  simp [fire_event, List.map_map, Function.comp, Listener.clear,
    ListenerCall.clear]

/-- C3: observer failures are isolated — every registered listener is invoked
in order even when earlier ones raise, every registered trigger callback is
invoked even when earlier ones raise, and a write run in which observers
raise returns exactly the success result (created/updated/events) of the same
run with no observer failures; the two runs perform the same invocations,
differing only in the recorded raised flags. -/
theorem observer_fault_isolation (saveMany : List Item → List SaveResult)
    (store : TStore) (triggers : String → List Handler)
    (listeners : List Listener) (items : List Item) (ev : Event) :
    (fire_event listeners ev).map (fun c => c.listener) =
      listeners.map (fun l => l.id) ∧
    (∀ t old new, (fire_trigger triggers t old new).map (fun i => i.handler) =
      (triggers t).map (fun h => h.id)) ∧
    (Site.write saveMany store (clearTriggers triggers)
        (listeners.map Listener.clear) items).created =
      (Site.write saveMany store triggers listeners items).created ∧
    (Site.write saveMany store (clearTriggers triggers)
        (listeners.map Listener.clear) items).updated =
      (Site.write saveMany store triggers listeners items).updated ∧
    (Site.write saveMany store (clearTriggers triggers)
        (listeners.map Listener.clear) items).events =
      (Site.write saveMany store triggers listeners items).events ∧
    (Site.write saveMany store (clearTriggers triggers)
        (listeners.map Listener.clear) items).listenerCalls =
      (Site.write saveMany store triggers listeners items).listenerCalls.map
        ListenerCall.clear ∧
    (Site.write saveMany store (clearTriggers triggers)
        (listeners.map Listener.clear) items).triggerTrace =
      (Site.write saveMany store triggers listeners items).triggerTrace.map
        (List.map Invocation.clear) := by
  refine ⟨?_, ?_, rfl, rfl, rfl, ?_, ?_⟩
  · simp [fire_event, List.map_map, Function.comp]
  · intro t old new
    simp [fire_trigger, List.map_map, Function.comp]
  · simp [Site.write, fire_event_clear, List.map_flatMap]
  · simp [Site.write, fire_triggers_clear]

/-- C3 witness: a listener that raises (`1`) does not stop the next listener
(`2`) from being invoked. -/
theorem observer_fault_isolation_witness :
    (fire_event [⟨1, true⟩, ⟨2, false⟩] ⟨"save", "a"⟩).map (fun c => c.listener) =
      [1, 2] :=
  (observer_fault_isolation (fun _ => []) ⟨fun _ _ => none⟩ (fun _ => [])
    [⟨1, true⟩, ⟨2, false⟩] [] ⟨"save", "a"⟩).1

/-- C1 (code bug): `Site.save_many` on one item that the processor keeps and
the store persists (revision 1) returns one persisted result but emits zero
events — the filtered-items generator is exhausted by `store.save_many`
before the event loop runs, so the event count does not match the persisted
count. -/
theorem save_many_drops_events :
    (Site.save_many (fun its => its.map (fun it => ⟨it.key, 1⟩))
        ⟨fun k _ => if k = "a" then some ⟨"a", "T", 1⟩ else none⟩
        (fun _ => []) [] (fun _ it => some it) [⟨"a", 0⟩]).result.length = 1 ∧
    (Site.save_many (fun its => its.map (fun it => ⟨it.key, 1⟩))
        ⟨fun k _ => if k = "a" then some ⟨"a", "T", 1⟩ else none⟩
        (fun _ => []) [] (fun _ it => some it) [⟨"a", 0⟩]).events = [] := by
  constructor
  · rfl
  · rfl

end Infogami
